import Mathlib

/-!
Verification of the BSC memecoin indexer pipeline (listener / processor /
entity store).  Shallow embedding of the Rust sources:

* `src/processor/src/scoring/bee_score.rs` — the BeeScore calculator
* `src/libs/indexer-db/src/entity/token.rs` — `Token::to_metrics`
* `src/processor/src/service.rs` — `update_token_score`
* `src/processor/src/handlers/swap.rs` — swap classification, price math,
  `hex_to_bigdecimal`, swap-row construction
* `src/processor/src/handlers/sync.rs` — reserve-based price math
* `src/libs/indexer-db/src/entity/swap.rs` — `ON CONFLICT (tx_hash, log_index)`
* `src/listener/src/service.rs` — rate-limit classification, retry loop,
  cursor advance

Numeric conventions: Rust `f64` metric fields are modelled as `ℚ` (every
finite double is a rational, and for the threshold constants appearing in
the source no double lies strictly between the decimal literal and its
IEEE rounding, so the band comparisons agree); `i32`/`i16`/`i64` counters
are modelled as `Int`; `u8` scores, `u64` block numbers and `u128`/
`BigDecimal` token amounts (always non-negative integers here) as `Nat`.
-/

namespace Indexer

/-! ## Token metrics and the BeeScore calculator
(`src/processor/src/scoring/bee_score.rs`) -/

/-- `TokenMetrics` from `src/libs/indexer-db/src/entity/token.rs`
(`f64` fields as `ℚ`, `i32` fields as `Int`). -/
structure TokenMetrics where
  liquidity_usd : ℚ
  lp_locked : Bool
  lp_lock_percent : ℚ
  top_10_holder_percent : ℚ
  dev_holdings_percent : ℚ
  ownership_renounced : Bool
  volume_1h_usd : ℚ
  trades_1h : Int
  holder_count : Int
  holder_count_1h_ago : Int
  price_change_1h : ℚ
  buys_1h : Int
  sells_1h : Int
deriving Repr, DecidableEq

/-- `BeeScoreResult` (the three `u8` score fields; the string breakdown
vectors carry no data beyond the per-rubric scores and are omitted). -/
structure BeeScoreResult where
  total : Nat
  safety_score : Nat
  traction_score : Nat
deriving Repr, DecidableEq

namespace BeeScoreCalculator

/-- Liquidity rubric of `calculate_safety` (0-15 points). -/
def liq_score (m : TokenMetrics) : Nat :=
  if m.liquidity_usd ≥ 100000 then 15
  else if m.liquidity_usd ≥ 50000 then 10
  else if m.liquidity_usd ≥ 10000 then 5
  else 0

/-- LP-lock rubric of `calculate_safety` (0-15 points). -/
def lock_score (m : TokenMetrics) : Nat :=
  if !m.lp_locked then 0
  else if m.lp_lock_percent ≥ 90 then 15
  else if m.lp_lock_percent ≥ 50 then 10
  else 5

/-- Holder-distribution rubric of `calculate_safety` (0-15 points). -/
def dist_score (m : TokenMetrics) : Nat :=
  if m.top_10_holder_percent < 40 then 15
  else if m.top_10_holder_percent < 60 then 10
  else if m.top_10_holder_percent < 80 then 5
  else 0

/-- Dev-holdings rubric of `calculate_safety` (0-10 points). -/
def dev_score (m : TokenMetrics) : Nat :=
  if m.dev_holdings_percent < 5 then 10
  else if m.dev_holdings_percent < 10 then 7
  else if m.dev_holdings_percent < 20 then 3
  else 0

/-- Contract-safety rubric of `calculate_safety` (0-5 points). -/
def contract_score (m : TokenMetrics) : Nat :=
  if m.ownership_renounced then 5 else 0

/-- `BeeScoreCalculator::calculate_safety` (0-60), the sum of the five
safety rubrics. -/
def calculate_safety (m : TokenMetrics) : Nat :=
  liq_score m + lock_score m + dist_score m + dev_score m + contract_score m

/-- The `vol_ratio` local of `calculate_traction`:
`volume_1h_usd / liquidity_usd`, guarded to 0 when liquidity is not
positive. -/
def vol_ratio (m : TokenMetrics) : ℚ :=
  if m.liquidity_usd > 0 then m.volume_1h_usd / m.liquidity_usd else 0

/-- Volume rubric of `calculate_traction` (0-12 points). -/
def vol_score (m : TokenMetrics) : Nat :=
  if vol_ratio m ≥ 1/2 ∧ vol_ratio m ≤ 2 then 12
  else if vol_ratio m ≥ 1/5 ∧ vol_ratio m ≤ 3 then 8
  else if vol_ratio m ≥ 1/10 then 4
  else 0

/-- Trade-count rubric of `calculate_traction` (0-8 points). -/
def trades_score (m : TokenMetrics) : Nat :=
  if m.trades_1h ≥ 100 then 8
  else if m.trades_1h ≥ 50 then 6
  else if m.trades_1h ≥ 20 then 4
  else if m.trades_1h ≥ 5 then 2
  else 0

/-- The `growth` local of `calculate_traction`: percentage holder growth,
0 when there was no previous positive holder count. -/
def growth (m : TokenMetrics) : ℚ :=
  if m.holder_count_1h_ago > 0 then
    ((m.holder_count - m.holder_count_1h_ago : Int) : ℚ)
      / (m.holder_count_1h_ago : ℚ) * 100
  else 0

/-- Holder-growth rubric of `calculate_traction` (0-8 points). -/
def growth_score (m : TokenMetrics) : Nat :=
  if growth m ≥ 20 then 8
  else if growth m ≥ 10 then 6
  else if growth m ≥ 5 then 4
  else if growth m > 0 then 2
  else 0

/-- Price-action rubric of `calculate_traction` (0-6 points); the arms are
in source order, so the final arm (1 point) covers losses in (-50, -20). -/
def price_score (m : TokenMetrics) : Nat :=
  if m.price_change_1h ≥ 5 ∧ m.price_change_1h ≤ 100 then 6
  else if m.price_change_1h ≥ 0 ∧ m.price_change_1h ≤ 200 then 4
  else if m.price_change_1h ≥ -20 then 2
  else if m.price_change_1h < -50 then 0
  else 1

/-- The `buy_ratio` local of `calculate_traction`: `buys / (buys + sells)`,
defaulting to 1/2 when there are no trades. -/
def buy_ratio (m : TokenMetrics) : ℚ :=
  if ((m.buys_1h + m.sells_1h : Int) : ℚ) > 0 then
    (m.buys_1h : ℚ) / ((m.buys_1h + m.sells_1h : Int) : ℚ)
  else 1/2

/-- Buy/sell-balance rubric of `calculate_traction` (0-6 points). -/
def balance_score (m : TokenMetrics) : Nat :=
  if buy_ratio m ≥ 2/5 ∧ buy_ratio m ≤ 7/10 then 6
  else if buy_ratio m ≥ 3/10 ∧ buy_ratio m ≤ 4/5 then 4
  else if buy_ratio m ≥ 1/5 then 2
  else 0

/-- `BeeScoreCalculator::calculate_traction` (0-40), the sum of the five
traction rubrics. -/
def calculate_traction (m : TokenMetrics) : Nat :=
  vol_score m + trades_score m + growth_score m + price_score m + balance_score m

/-- `BeeScoreCalculator::calculate`: total = safety + traction. -/
def calculate (m : TokenMetrics) : BeeScoreResult :=
  { total := calculate_safety m + calculate_traction m
    safety_score := calculate_safety m
    traction_score := calculate_traction m }

end BeeScoreCalculator

section ScoreBounds

open BeeScoreCalculator

lemma liq_score_le (m : TokenMetrics) : liq_score m ≤ 15 := by
  unfold liq_score; split_ifs <;> omega

lemma lock_score_le (m : TokenMetrics) : lock_score m ≤ 15 := by
  unfold lock_score; split_ifs <;> omega

lemma dist_score_le (m : TokenMetrics) : dist_score m ≤ 15 := by
  unfold dist_score; split_ifs <;> omega

lemma dev_score_le (m : TokenMetrics) : dev_score m ≤ 10 := by
  unfold dev_score; split_ifs <;> omega

lemma contract_score_le (m : TokenMetrics) : contract_score m ≤ 5 := by
  unfold contract_score; split_ifs <;> omega

lemma calculate_safety_le (m : TokenMetrics) : calculate_safety m ≤ 60 := by
  have h1 := liq_score_le m
  have h2 := lock_score_le m
  have h3 := dist_score_le m
  have h4 := dev_score_le m
  have h5 := contract_score_le m
  unfold calculate_safety; omega

lemma vol_score_le (m : TokenMetrics) : vol_score m ≤ 12 := by
  unfold vol_score; split_ifs <;> omega

lemma trades_score_le (m : TokenMetrics) : trades_score m ≤ 8 := by
  unfold trades_score; split_ifs <;> omega

lemma growth_score_le (m : TokenMetrics) : growth_score m ≤ 8 := by
  unfold growth_score; split_ifs <;> omega

lemma price_score_le (m : TokenMetrics) : price_score m ≤ 6 := by
  unfold price_score; split_ifs <;> omega

lemma balance_score_le (m : TokenMetrics) : balance_score m ≤ 6 := by
  unfold balance_score; split_ifs <;> omega

lemma calculate_traction_le (m : TokenMetrics) : calculate_traction m ≤ 40 := by
  have h1 := vol_score_le m
  have h2 := trades_score_le m
  have h3 := growth_score_le m
  have h4 := price_score_le m
  have h5 := balance_score_le m
  unfold calculate_traction; omega

end ScoreBounds

/-- C3: for every `TokenMetrics` input, `BeeScoreCalculator::calculate`
returns `total = safety_score + traction_score` with
`safety_score ∈ [0,60]`, `traction_score ∈ [0,40]` and `total ∈ [0,100]`
(the lower bounds hold because the scores are unsigned). -/
theorem calculate_total_and_bounds (m : TokenMetrics) :
    (BeeScoreCalculator.calculate m).total
        = (BeeScoreCalculator.calculate m).safety_score
            + (BeeScoreCalculator.calculate m).traction_score
      ∧ (BeeScoreCalculator.calculate m).safety_score ≤ 60
      ∧ (BeeScoreCalculator.calculate m).traction_score ≤ 40
      ∧ (BeeScoreCalculator.calculate m).total ≤ 100 := by
  refine ⟨rfl, calculate_safety_le m, calculate_traction_le m, ?_⟩
  have h1 := calculate_safety_le m
  have h2 := calculate_traction_le m
  show BeeScoreCalculator.calculate_safety m
      + BeeScoreCalculator.calculate_traction m ≤ 100
  omega

/-- The metrics tuple of the spec's "score edges" boundary case:
liquidity 100000, LP locked at 90 percent, top-10 at 40, dev at 5,
ownership renounced, volume/liquidity ratio 0.5, 100 trades, 20 percent
holder growth, +5 price change, 50 percent buys. -/
def scoreEdgeMetrics : TokenMetrics :=
  { liquidity_usd := 100000
    lp_locked := true
    lp_lock_percent := 90
    top_10_holder_percent := 40
    dev_holdings_percent := 5
    ownership_renounced := true
    volume_1h_usd := 50000
    trades_1h := 100
    holder_count := 120
    holder_count_1h_ago := 100
    price_change_1h := 5
    buys_1h := 50
    sells_1h := 50 }

/-- C2 counterexample: on the spec's boundary tuple the calculator does
NOT return safety 60 / traction 40 / total 100 — the top-10 value 40
falls outside the strict `< 40.0` best band (10 points, not 15) and the
dev value 5 falls outside the strict `< 5.0` best band (7 points, not
10). -/
theorem scoreEdge_not_claimed : ¬ ((BeeScoreCalculator.calculate scoreEdgeMetrics).safety_score = 60
      ∧ (BeeScoreCalculator.calculate scoreEdgeMetrics).traction_score = 40
      ∧ (BeeScoreCalculator.calculate scoreEdgeMetrics).total = 100) := by
  simp only [BeeScoreCalculator.calculate, BeeScoreCalculator.calculate_safety,
    BeeScoreCalculator.calculate_traction, BeeScoreCalculator.liq_score,
    BeeScoreCalculator.lock_score, BeeScoreCalculator.dist_score,
    BeeScoreCalculator.dev_score, BeeScoreCalculator.contract_score,
    BeeScoreCalculator.vol_score, BeeScoreCalculator.vol_ratio,
    BeeScoreCalculator.trades_score, BeeScoreCalculator.growth_score,
    BeeScoreCalculator.growth, BeeScoreCalculator.price_score,
    BeeScoreCalculator.balance_score, BeeScoreCalculator.buy_ratio,
    scoreEdgeMetrics]
  norm_num

/-- C2 (amended): on the metrics tuple liquidity 100000, lp_locked with 90
percent, top-10 = 40, dev = 5, renounced, ratio 0.5, 100 trades, 20
percent growth, +5 price, 50 percent buys, the scorer returns
safety 52 (top-10 = 40 scores 10 because its best band is strict `< 40`,
and dev = 5 scores 7 because its best band is strict `< 5`), traction 40,
total 92. -/
theorem scoreEdge_values :
    BeeScoreCalculator.calculate scoreEdgeMetrics
      = { total := 92, safety_score := 52, traction_score := 40 } := by
  simp only [BeeScoreCalculator.calculate, BeeScoreCalculator.calculate_safety,
    BeeScoreCalculator.calculate_traction, BeeScoreCalculator.liq_score,
    BeeScoreCalculator.lock_score, BeeScoreCalculator.dist_score,
    BeeScoreCalculator.dev_score, BeeScoreCalculator.contract_score,
    BeeScoreCalculator.vol_score, BeeScoreCalculator.vol_ratio,
    BeeScoreCalculator.trades_score, BeeScoreCalculator.growth_score,
    BeeScoreCalculator.growth, BeeScoreCalculator.price_score,
    BeeScoreCalculator.balance_score, BeeScoreCalculator.buy_ratio,
    scoreEdgeMetrics]
  norm_num

/-! ## Token entity and `to_metrics`
(`src/libs/indexer-db/src/entity/token.rs`) -/

/-- The fields of the `Token` entity read or written by `Token::to_metrics`
and by the processor's `update_token_score`.  Metadata fields (address,
name, symbol, decimals, supply, timestamps, 24h counters, sniper ratio,
unlock date) are omitted: the modelled logic never reads them (`symbol`
only decorates alert message text).  `BigDecimal` columns are `Option ℚ`,
integer columns `Option Int`. -/
structure Token where
  liquidity_usd : Option ℚ
  lp_locked : Option Bool
  lp_lock_percent : Option ℚ
  top_10_holder_percent : Option ℚ
  dev_holdings_percent : Option ℚ
  ownership_renounced : Option Bool
  volume_1h_usd : Option ℚ
  trades_1h : Option Int
  holder_count : Option Int
  holder_count_1h_ago : Option Int
  price_change_1h : Option ℚ
  buys_1h : Option Int
  sells_1h : Option Int
  bee_score : Option Int
  safety_score : Option Int
  traction_score : Option Int
deriving Repr, DecidableEq

/-- `Token::to_metrics`: NULL columns are replaced by worst-case 100 for
the two concentration percentages and by 0/false everywhere else.  (The
source round-trips `BigDecimal` through its decimal string into `f64`;
the numeric value is preserved, here exactly in `ℚ`.) -/
def Token.to_metrics (t : Token) : TokenMetrics :=
  { liquidity_usd := t.liquidity_usd.getD 0
    lp_locked := t.lp_locked.getD false
    lp_lock_percent := t.lp_lock_percent.getD 0
    top_10_holder_percent := t.top_10_holder_percent.getD 100
    dev_holdings_percent := t.dev_holdings_percent.getD 100
    ownership_renounced := t.ownership_renounced.getD false
    volume_1h_usd := t.volume_1h_usd.getD 0
    trades_1h := t.trades_1h.getD 0
    holder_count := t.holder_count.getD 0
    holder_count_1h_ago := t.holder_count_1h_ago.getD 0
    price_change_1h := t.price_change_1h.getD 0
    buys_1h := t.buys_1h.getD 0
    sells_1h := t.sells_1h.getD 0 }

/-- A token row whose optional metric columns are all NULL. -/
def allNullToken : Token :=
  { liquidity_usd := none, lp_locked := none, lp_lock_percent := none
    top_10_holder_percent := none, dev_holdings_percent := none
    ownership_renounced := none, volume_1h_usd := none, trades_1h := none
    holder_count := none, holder_count_1h_ago := none
    price_change_1h := none, buys_1h := none, sells_1h := none
    bee_score := none, safety_score := none, traction_score := none }

/-- C10: scoring an all-NULL token yields safety 0 but traction 10
(4 points from the price-change band containing 0 and 6 points from the
0.5 default buy ratio when there are no trades), hence bee_score 10. -/
theorem allNullToken_score :
    BeeScoreCalculator.calculate allNullToken.to_metrics
      = { total := 10, safety_score := 0, traction_score := 10 } := by
  simp only [BeeScoreCalculator.calculate, BeeScoreCalculator.calculate_safety,
    BeeScoreCalculator.calculate_traction, BeeScoreCalculator.liq_score,
    BeeScoreCalculator.lock_score, BeeScoreCalculator.dist_score,
    BeeScoreCalculator.dev_score, BeeScoreCalculator.contract_score,
    BeeScoreCalculator.vol_score, BeeScoreCalculator.vol_ratio,
    BeeScoreCalculator.trades_score, BeeScoreCalculator.growth_score,
    BeeScoreCalculator.growth, BeeScoreCalculator.price_score,
    BeeScoreCalculator.balance_score, BeeScoreCalculator.buy_ratio,
    allNullToken, Token.to_metrics]
  norm_num

/-! ## Processor score update and alert trigger
(`update_token_score` in `src/processor/src/service.rs`) -/

/-- `update_token_score`: recompute the BeeScore from the freshly fetched
token row, persist the three score fields, and emit a `high_bee_score`
alert when the new total is at least 80 while the previously persisted
`bee_score` (defaulting to 0 when NULL) was below 80.  Returns the
updated row and whether the alert was emitted. -/
def update_token_score (t : Token) : Token × Bool :=
  let result := BeeScoreCalculator.calculate t.to_metrics
  ({ t with
      bee_score := some (result.total : Int)
      safety_score := some (result.safety_score : Int)
      traction_score := some (result.traction_score : Int) },
    decide (80 ≤ result.total) && decide (t.bee_score.getD 0 < 80))

/-- C8: the alert fires iff the new total is ≥ 80 and the previously
persisted score (NULL counting as 0) was < 80; the update writes exactly
the three score fields; and when the score stays ≥ 80 a second run on the
updated row never fires again, so the alert is emitted at most once
across the two runs. -/
theorem update_token_score_alert_spec (t : Token) :
    ((update_token_score t).2 = true ↔
        80 ≤ (BeeScoreCalculator.calculate t.to_metrics).total
          ∧ t.bee_score.getD 0 < 80)
  ∧ (update_token_score t).1 =
      { t with
          bee_score := some (((BeeScoreCalculator.calculate t.to_metrics).total : Int))
          safety_score := some (((BeeScoreCalculator.calculate t.to_metrics).safety_score : Int))
          traction_score := some (((BeeScoreCalculator.calculate t.to_metrics).traction_score : Int)) }
  ∧ (80 ≤ (BeeScoreCalculator.calculate t.to_metrics).total →
        (update_token_score (update_token_score t).1).2 = false) := by
  refine ⟨?_, rfl, ?_⟩
  · simp [update_token_score]
  · intro h
    cases t
    simp only [update_token_score, Token.to_metrics] at h ⊢
    simp only [Bool.and_eq_false_iff, decide_eq_false_iff_not, not_lt,
      Option.getD_some]
    right
    exact_mod_cast h

/-- The "perfect token" from the repo's own scoring test, as a stored row
with no previously persisted score. -/
def perfectToken : Token :=
  { liquidity_usd := some 150000, lp_locked := some true
    lp_lock_percent := some 95, top_10_holder_percent := some 30
    dev_holdings_percent := some 3, ownership_renounced := some true
    volume_1h_usd := some 100000, trades_1h := some 150
    holder_count := some 500, holder_count_1h_ago := some 400
    price_change_1h := some 50, buys_1h := some 100, sells_1h := some 50
    bee_score := none, safety_score := none, traction_score := none }

lemma perfectToken_total :
    (BeeScoreCalculator.calculate perfectToken.to_metrics).total = 100 := by
  simp only [BeeScoreCalculator.calculate, BeeScoreCalculator.calculate_safety,
    BeeScoreCalculator.calculate_traction, BeeScoreCalculator.liq_score,
    BeeScoreCalculator.lock_score, BeeScoreCalculator.dist_score,
    BeeScoreCalculator.dev_score, BeeScoreCalculator.contract_score,
    BeeScoreCalculator.vol_score, BeeScoreCalculator.vol_ratio,
    BeeScoreCalculator.trades_score, BeeScoreCalculator.growth_score,
    BeeScoreCalculator.growth, BeeScoreCalculator.price_score,
    BeeScoreCalculator.balance_score, BeeScoreCalculator.buy_ratio,
    perfectToken, Token.to_metrics]
  norm_num

/-- Witness for C8: on the perfect token (no prior score) the first run
emits the alert and the immediate re-run does not. -/
theorem update_token_score_alert_spec_witness :
    (update_token_score perfectToken).2 = true
      ∧ (update_token_score (update_token_score perfectToken).1).2 = false := by
  have h := update_token_score_alert_spec perfectToken
  refine ⟨h.1.mpr ⟨?_, ?_⟩, h.2.2 ?_⟩
  · rw [perfectToken_total]; omega
  · simp [perfectToken]
  · rw [perfectToken_total]; omega

/-! ## Hex-amount parsing in the handlers
(`hex_to_bigdecimal` in `src/processor/src/handlers/swap.rs`,
`src/processor/src/handlers/transfer.rs` and
`src/processor/src/handlers/sync.rs` — the three copies are identical).
Strings are modelled as `List Char`. -/

/-- Value of one hexadecimal digit, `none` for a non-hex character. -/
def hexVal (c : Char) : Option Nat :=
  if '0' ≤ c ∧ c ≤ '9' then some (c.toNat - '0'.toNat)
  else if 'a' ≤ c ∧ c ≤ 'f' then some (c.toNat - 'a'.toNat + 10)
  else if 'A' ≤ c ∧ c ≤ 'F' then some (c.toNat - 'A'.toNat + 10)
  else none

/-- Accumulator loop of `u128::from_str_radix(s, 16)`: each step is a
checked multiply-add, so the parse fails (`none`) on the first non-hex
digit or as soon as the accumulated value would reach `2^128`. -/
def parse_hex_u128_go : Nat → List Char → Option Nat
  | acc, [] => some acc
  | acc, c :: cs =>
    match hexVal c with
    | none => none
    | some d =>
      if acc * 16 + d < 2 ^ 128 then parse_hex_u128_go (acc * 16 + d) cs
      else none

/-- `u128::from_str_radix(s, 16)`: errors on an empty string, a non-hex
digit, or overflow past `u128::MAX`. -/
def parse_hex_u128 (s : List Char) : Option Nat :=
  if s.isEmpty then none else parse_hex_u128_go 0 s

/-- `hex.trim_start_matches("0x")`: removes every leading repetition of
the pattern `0x`. -/
def trim_start_0x : List Char → List Char
  | '0' :: 'x' :: rest => trim_start_0x rest
  | s => s

/-- `hex_to_bigdecimal`: strip the `0x` prefix; empty or all-zero strings
give 0; otherwise parse as `u128`, and on any parse error (including
overflow for values of `2^128` and above) fall back to 0. -/
def hex_to_bigdecimal (hex : List Char) : Nat :=
  let hexStr := trim_start_0x hex
  if hexStr.isEmpty || hexStr.all (fun c => c == '0') then 0
  else
    match parse_hex_u128 hexStr with
    | some v => v
    | none => 0

/-- Mathematical denotation of a hex digit string (reference definition
for the spec's "exact unsigned integer value denoted by h"; no width
limit). -/
def hex_denotation_go : Nat → List Char → Option Nat
  | acc, [] => some acc
  | acc, c :: cs =>
    match hexVal c with
    | none => none
    | some d => hex_denotation_go (acc * 16 + d) cs

/-- Denotation of a `0x`-prefixed hex string. -/
def hex_denotation (s : List Char) : Option Nat :=
  if (trim_start_0x s).isEmpty then none
  else hex_denotation_go 0 (trim_start_0x s)

/-- The 32-byte hex string denoting `2^128` (a `0x` prefix, 31 zero
digits, a one, 32 zero digits). -/
def pow128Hex : List Char :=
  '0' :: 'x' :: (List.replicate 31 '0' ++ '1' :: List.replicate 32 '0')

/-- C4 (code bug evidence): the 32-byte amount `2^128` is well inside the
claimed range `[0, 2^256 - 1]` but `hex_to_bigdecimal` collapses it to 0,
because the parse goes through `u128` and its overflow error is mapped to
`BigDecimal::from(0)`. -/
theorem hex_to_bigdecimal_collapses_pow128 :
    hex_denotation pow128Hex = some (2 ^ 128)
      ∧ 2 ^ 128 ≤ 2 ^ 256 - 1
      ∧ hex_to_bigdecimal pow128Hex = 0 := by
  refine ⟨by decide, by norm_num, by decide⟩

/-! ## Swap direction classification
(`handle` in `src/processor/src/handlers/swap.rs`, lines 78-109).
The four event amounts are the non-negative integers produced by
`hex_to_bigdecimal`; `.skip` is the `return Ok(())` taken before any
database write ("ambiguous swap direction" / "unknown base token
index"). -/

/-- Outcome of the direction match in the Swap handler. -/
inductive SwapAction where
  | buy (amount_tokens amount_bnb : Nat)
  | sell (amount_tokens amount_bnb : Nat)
  | skip
deriving Repr, DecidableEq

/-- Whether the outcome is a buy. -/
def SwapAction.is_buy : SwapAction → Bool
  | .buy _ _ => true
  | _ => false

/-- Whether the outcome is a sell. -/
def SwapAction.is_sell : SwapAction → Bool
  | .sell _ _ => true
  | _ => false

/-- Whether the handler skipped the event. -/
def SwapAction.is_skip : SwapAction → Bool
  | .skip => true
  | _ => false

/-- The `match pair.base_token_index` block of the Swap handler: for base
index 0 (token0 is the quote asset), base-in and token-out positive is a
buy, else token-in and base-out positive is a sell, else skip; the
symmetric logic for base index 1; any other index skips. -/
def classify_swap (base_token_index : Option Int)
    (amount0_in amount1_in amount0_out amount1_out : Nat) : SwapAction :=
  match base_token_index with
  | some 0 =>
    if 0 < amount0_in ∧ 0 < amount1_out then .buy amount1_out amount0_in
    else if 0 < amount1_in ∧ 0 < amount0_out then .sell amount1_in amount0_out
    else .skip
  | some 1 =>
    if 0 < amount1_in ∧ 0 < amount0_out then .buy amount0_out amount1_in
    else if 0 < amount0_in ∧ 0 < amount1_out then .sell amount0_in amount1_out
    else .skip
  | _ => .skip

/-- The base-side component of an (amount0, amount1) pair. -/
def base_side (bti : Option Int) (x0 x1 : Nat) : Nat :=
  if bti = some 0 then x0 else x1

/-- The token-side component of an (amount0, amount1) pair. -/
def token_side (bti : Option Int) (x0 x1 : Nat) : Nat :=
  if bti = some 0 then x1 else x0

/-- Claim C7 as stated: buy exactly when base-in and token-out are
positive, sell exactly when token-in and base-out are positive, and skip
exactly in every other combination. -/
def swap_direction_claim : Prop :=
  ∀ (bti : Option Int) (a0in a1in a0out a1out : Nat),
    bti = some 0 ∨ bti = some 1 →
      ((classify_swap bti a0in a1in a0out a1out).is_buy = true
          ↔ 0 < base_side bti a0in a1in ∧ 0 < token_side bti a0out a1out)
      ∧ ((classify_swap bti a0in a1in a0out a1out).is_sell = true
          ↔ 0 < token_side bti a0in a1in ∧ 0 < base_side bti a0out a1out)
      ∧ ((classify_swap bti a0in a1in a0out a1out).is_skip = true
          ↔ ¬(0 < base_side bti a0in a1in ∧ 0 < token_side bti a0out a1out)
            ∧ ¬(0 < token_side bti a0in a1in ∧ 0 < base_side bti a0out a1out))

/-- C7 counterexample: when all four amounts are positive (base index 0,
all amounts 1) both the buy and the sell conditions hold; the handler
checks the buy arm first and classifies the event as a buy, so the
claim's "sell exactly when token-in and base-out are positive" is false
on the code. -/
theorem swap_direction_claim_false : ¬ swap_direction_claim := by
  intro h
  have h2 := (h (some 0) 1 1 1 1 (Or.inl rfl)).2.1
  simp [classify_swap, base_side, token_side, SwapAction.is_sell] at h2

/-- C7 (amended): the handler classifies a buy exactly when base-in and
token-out are positive; a sell exactly when token-in and base-out are
positive AND the buy condition does not hold (the buy arm is tested
first); and skips — returning before any state is modified — exactly
when neither condition holds. -/
theorem classify_swap_spec (bti : Option Int) (a0in a1in a0out a1out : Nat)
    (hb : bti = some 0 ∨ bti = some 1) :
    ((classify_swap bti a0in a1in a0out a1out).is_buy = true
        ↔ 0 < base_side bti a0in a1in ∧ 0 < token_side bti a0out a1out)
    ∧ ((classify_swap bti a0in a1in a0out a1out).is_sell = true
        ↔ ¬(0 < base_side bti a0in a1in ∧ 0 < token_side bti a0out a1out)
          ∧ (0 < token_side bti a0in a1in ∧ 0 < base_side bti a0out a1out))
    ∧ ((classify_swap bti a0in a1in a0out a1out).is_skip = true
        ↔ ¬(0 < base_side bti a0in a1in ∧ 0 < token_side bti a0out a1out)
          ∧ ¬(0 < token_side bti a0in a1in ∧ 0 < base_side bti a0out a1out)) := by
  rcases hb with rfl | rfl <;>
    · simp only [classify_swap]
      split_ifs <;>
        simp_all [SwapAction.is_buy, SwapAction.is_sell, SwapAction.is_skip,
          base_side, token_side]

/-- Witness for C7: base index 0, one unit of base in and one token out
is classified as a buy. -/
theorem classify_swap_spec_witness :
    (classify_swap (some 0) 1 0 0 1).is_buy = true := by
  exact (classify_swap_spec (some 0) 1 0 0 1 (Or.inl rfl)).1.mpr
    (by simp [base_side, token_side])

/-! ## Price computations
(Swap handler lines 122-129 and Sync handler lines 97-103.)  The `f64`
arithmetic is modelled exactly over `ℚ`; the zero guard is independent of
floating-point rounding. -/

/-- `to_decimal_amount`: divide a raw integer amount by `10^decimals`. -/
def to_decimal_amount (raw : Nat) (decimals : Nat) : ℚ :=
  (raw : ℚ) / 10 ^ decimals

/-- The Swap handler's `price_usd`: `amount_usd / tokens_decimal` when
the scaled token amount is positive, else 0. -/
def swap_price_usd (amount_bnb amount_tokens : Nat) (bnb_price_usd : ℚ) : ℚ :=
  if to_decimal_amount amount_tokens 18 > 0 then
    to_decimal_amount amount_bnb 18 * bnb_price_usd / to_decimal_amount amount_tokens 18
  else 0

/-- The Sync handler's `price_bnb`: `bnb_reserve / token_reserve` (both
scaled by `10^18`) when the scaled token reserve is positive, else 0. -/
def sync_price_bnb (bnb_reserve token_reserve : Nat) : ℚ :=
  if to_decimal_amount token_reserve 18 > 0 then
    to_decimal_amount bnb_reserve 18 / to_decimal_amount token_reserve 18
  else 0

/-- The Sync handler's `price_usd = price_bnb * bnb_price_usd`. -/
def sync_price_usd (bnb_reserve token_reserve : Nat) (bnb_price_usd : ℚ) : ℚ :=
  sync_price_bnb bnb_reserve token_reserve * bnb_price_usd

/-- C9: with a zero token-side swap amount the computed `price_usd` is 0,
and with a zero token reserve in a Sync event both `price_bnb` and
`price_usd` are 0; both computations are total Lean functions, the
division being taken only under the positivity guard. -/
theorem zero_token_amount_price_is_zero (amount_bnb bnb_reserve : Nat)
    (bnb_price_usd : ℚ) :
    swap_price_usd amount_bnb 0 bnb_price_usd = 0
      ∧ sync_price_bnb bnb_reserve 0 = 0
      ∧ sync_price_usd bnb_reserve 0 bnb_price_usd = 0 := by
  refine ⟨?_, ?_, ?_⟩ <;>
    simp [swap_price_usd, sync_price_bnb, sync_price_usd, to_decimal_amount]

/-! ## Swap row construction and the idempotent insert
(Swap handler lines 131-146 and `Swap::create` in
`src/libs/indexer-db/src/entity/swap.rs`). -/

/-- The decoded `SwapEvent` (`src/processor/src/events/swap.rs`): note it
carries NO transaction hash and NO log index.  (`to_address` is the Rust
field `to`, a Lean keyword.) -/
structure SwapEvent where
  pair : String
  sender : String
  amount0_in : List Char
  amount1_in : List Char
  amount0_out : List Char
  amount1_out : List Char
  to_address : String
  block : String
deriving Repr, DecidableEq

/-- The constant written into `NewSwap.tx_hash` by the handler:
`format!("0x{}", "0".repeat(64))`. -/
def zero_tx_hash : String := "0x" ++ String.mk (List.replicate 64 '0')

/-- The identity-relevant fields of the `NewSwap` row built by the Swap
handler (monetary `BigDecimal` fields and the wall-clock timestamp are
omitted; they do not participate in the `(tx_hash, log_index)` key). -/
structure NewSwap where
  tx_hash : String
  block_number : Int
  log_index : Int
  pair_address : String
  token_address : String
  wallet_address : String
  trade_type : String
  amount_tokens : Nat
  amount_bnb : Nat
  is_whale : Bool
deriving Repr, DecidableEq

/-- The `NewSwap` literal of the handler: `tx_hash` is the 64-zero
constant and `log_index` is 0, whatever the originating event was. -/
def mk_new_swap (e : SwapEvent) (is_buy : Bool)
    (amount_tokens amount_bnb : Nat) (token_address : String)
    (is_whale : Bool) (block_number : Int) : NewSwap :=
  { tx_hash := zero_tx_hash
    block_number := block_number
    log_index := 0
    pair_address := e.pair
    token_address := token_address
    wallet_address := e.to_address
    trade_type := if is_buy then "buy" else "sell"
    amount_tokens := amount_tokens
    amount_bnb := amount_bnb
    is_whale := is_whale }

/-- `Swap::create` with `ON CONFLICT (tx_hash, log_index) DO NOTHING`:
the row is appended only if no existing row has the same key. -/
def swap_insert (table : List NewSwap) (row : NewSwap) : List NewSwap :=
  if table.any (fun r => r.tx_hash == row.tx_hash && r.log_index == row.log_index)
  then table
  else table ++ [row]

/-- C1 (code bug evidence): every persisted Swap row carries the constant
key `("0x000…0", 0)` regardless of the originating log, so inserting the
rows of ANY two swap events — however distinct — leaves a single row:
the second insert is silently dropped by `ON CONFLICT DO NOTHING`. -/
theorem swap_row_key_constant (e₁ e₂ : SwapEvent) (b₁ b₂ : Bool)
    (t₁ t₂ n₁ n₂ : Nat) (a₁ a₂ : String) (w₁ w₂ : Bool) (k₁ k₂ : Int) :
    (mk_new_swap e₁ b₁ t₁ n₁ a₁ w₁ k₁).tx_hash
        = (mk_new_swap e₂ b₂ t₂ n₂ a₂ w₂ k₂).tx_hash
      ∧ (mk_new_swap e₁ b₁ t₁ n₁ a₁ w₁ k₁).log_index
        = (mk_new_swap e₂ b₂ t₂ n₂ a₂ w₂ k₂).log_index
      ∧ (swap_insert (swap_insert [] (mk_new_swap e₁ b₁ t₁ n₁ a₁ w₁ k₁))
            (mk_new_swap e₂ b₂ t₂ n₂ a₂ w₂ k₂)).length = 1 := by
  refine ⟨rfl, rfl, ?_⟩
  simp [swap_insert, mk_new_swap]

/-! ## Listener: rate-limit classification and retry loop
(`src/listener/src/service.rs`).  The RPC transport is modelled as a
function from attempt number to response; a sleep is recorded as its
duration in milliseconds. -/

/-- ASCII lowercase conversion (`to_lowercase` on the ASCII error
text). -/
def lower_char (c : Char) : Char :=
  if c.isUpper then Char.ofNat (c.toNat + 32) else c

/-- Rust substring containment (`str::contains`). -/
def contains_sub (s pat : List Char) : Bool :=
  match s with
  | [] => List.isPrefixOf pat []
  | c :: rest => List.isPrefixOf pat (c :: rest) || contains_sub rest pat

/-- `is_rate_limited`: the lowercased error text contains `429`,
`rate limit`, `too many requests`, `-32005` or `limit exceeded`. -/
def is_rate_limited (err : List Char) : Bool :=
  let e := err.map lower_char
  contains_sub e ("429".toList)
    || contains_sub e ("rate limit".toList)
    || contains_sub e ("too many requests".toList)
    || contains_sub e ("-32005".toList)
    || contains_sub e ("limit exceeded".toList)

/-- One RPC response: a log batch or an error message. -/
inductive RpcResponse where
  | ok (logs : List Nat)
  | err (msg : List Char)
deriving Repr, DecidableEq

/-- Result of `fetch_logs_with_retry`. -/
inductive FetchOutcome where
  | success (logs : List Nat)
  | failure (msg : List Char)
  | maxRetriesExceeded (retries : Nat)
deriving Repr, DecidableEq

/-- The `for attempt in 0..max_retries` loop of `fetch_logs_with_retry`:
on success return the logs after a politeness sleep of `base_delay`; on a
rate-limited error sleep `base_delay * 2^attempt` and move to the next
attempt; on any other error return it immediately; when the attempts are
exhausted fail with `MaxRetriesExceeded(max_retries)`.  Returns the
outcome together with the list of sleep durations performed. -/
def fetch_go (responses : Nat → RpcResponse) (max_retries base_delay attempt : Nat) :
    FetchOutcome × List Nat :=
  if _h : attempt < max_retries then
    match responses attempt with
    | .ok logs => (.success logs, [base_delay])
    | .err m =>
      if is_rate_limited m then
        let r := fetch_go responses max_retries base_delay (attempt + 1)
        (r.1, base_delay * 2 ^ attempt :: r.2)
      else (.failure m, [])
  else (.maxRetriesExceeded max_retries, [])
termination_by max_retries - attempt

/-- `fetch_logs_with_retry` starts at attempt 0. -/
def fetch_logs_with_retry (responses : Nat → RpcResponse)
    (max_retries base_delay : Nat) : FetchOutcome × List Nat :=
  fetch_go responses max_retries base_delay 0

/-- The exponential-backoff sleep sequence for `k` rate-limited attempts:
`base * 2^0, base * 2^1, …, base * 2^(k-1)`. -/
def backoff_sleeps (base k : Nat) : List Nat :=
  (List.range k).map (fun i => base * 2 ^ i)

lemma fetch_go_rl_skip (responses : Nat → RpcResponse) (mr bd : Nat) :
    ∀ (k attempt : Nat),
      (∀ i, attempt ≤ i → i < attempt + k →
          ∃ m, responses i = .err m ∧ is_rate_limited m = true) →
      attempt + k ≤ mr →
      fetch_go responses mr bd attempt
        = ((fetch_go responses mr bd (attempt + k)).1,
            ((List.range' attempt k).map (fun i => bd * 2 ^ i))
              ++ (fetch_go responses mr bd (attempt + k)).2) := by
  intro k
  induction k with
  | zero => intro attempt _ _; simp
  | succ n ih =>
    intro attempt hrl hle
    have ha : attempt < mr := by omega
    obtain ⟨m, hm, hrlm⟩ := hrl attempt le_rfl (by omega)
    rw [fetch_go, dif_pos ha, hm]
    simp only [hrlm, if_true]
    have hstep := ih (attempt + 1)
      (fun i hi hi2 => hrl i (by omega) (by omega)) (by omega)
    have harith : attempt + 1 + n = attempt + (n + 1) := by omega
    rw [harith] at hstep
    rw [hstep, List.range'_succ]
    simp

/-- C5: if the first `k` responses are all rate-limited errors, the
retry loop backs off `base_delay * 2^attempt` after each of them, and
then (a) a non-rate-limited error at attempt `k` surfaces immediately as
`failure`, (b) a success at attempt `k` returns the logs (with the final
politeness sleep of `base_delay`), and (c) if all `max_retries` attempts
were rate-limited the loop fails with
`MaxRetriesExceeded(max_retries)`. -/
theorem fetch_logs_with_retry_spec (responses : Nat → RpcResponse)
    (max_retries base_delay k : Nat)
    (hk : ∀ i, i < k → ∃ m, responses i = .err m ∧ is_rate_limited m = true) :
    (∀ m, responses k = .err m → is_rate_limited m = false → k < max_retries →
        fetch_logs_with_retry responses max_retries base_delay
          = (.failure m, backoff_sleeps base_delay k))
    ∧ (∀ logs, responses k = .ok logs → k < max_retries →
        fetch_logs_with_retry responses max_retries base_delay
          = (.success logs, backoff_sleeps base_delay k ++ [base_delay]))
    ∧ (k = max_retries →
        fetch_logs_with_retry responses max_retries base_delay
          = (.maxRetriesExceeded max_retries,
              backoff_sleeps base_delay max_retries)) := by
  have hpre : ∀ hle : k ≤ max_retries,
      fetch_logs_with_retry responses max_retries base_delay
        = ((fetch_go responses max_retries base_delay k).1,
            backoff_sleeps base_delay k
              ++ (fetch_go responses max_retries base_delay k).2) := by
    intro hle
    have h0 := fetch_go_rl_skip responses max_retries base_delay k 0
      (fun i hi hi2 => hk i (by omega)) (by omega)
    simpa [fetch_logs_with_retry, backoff_sleeps, List.range_eq_range'] using h0
  refine ⟨?_, ?_, ?_⟩
  · intro m hm hnrl hlt
    rw [hpre (by omega), fetch_go, dif_pos hlt, hm]
    simp [hnrl]
  · intro logs hlogs hlt
    rw [hpre (by omega), fetch_go, dif_pos hlt, hlogs]
  · intro heq
    subst heq
    rw [hpre le_rfl, fetch_go, dif_neg (by omega)]
    simp

/-- A transport that is rate-limited on the first attempt and succeeds
on the second. -/
def rl_then_ok_responses : Nat → RpcResponse := fun i =>
  if i = 0 then .err ("rate limit".toList) else .ok [7]

/-- Witness for C5: one rate-limited attempt (10 ms backoff) followed by
a success (10 ms politeness sleep) returns the logs. -/
theorem fetch_logs_with_retry_spec_witness :
    fetch_logs_with_retry rl_then_ok_responses 3 10
      = (.success [7], [10, 10]) := by
  have hk : ∀ i, i < 1 →
      ∃ m, rl_then_ok_responses i = .err m ∧ is_rate_limited m = true := by
    intro i hi
    interval_cases i
    exact ⟨("rate limit".toList), rfl, by decide⟩
  have h := (fetch_logs_with_retry_spec rl_then_ok_responses 3 10 1 hk).2.1
    [7] rfl (by omega)
  rw [h]
  rfl

/-! ## Listener: cursor advance
(`fetch_and_save_logs` in `src/listener/src/service.rs`, lines 152-196). -/

/-- `defaults::BLOCK_RANGE`. -/
def BLOCK_RANGE : Nat := 10

/-- The cursor outcome of one listener tick. -/
structure TickResult where
  last_synced_block : Nat
  fetched : Bool
deriving Repr, DecidableEq

/-- The cursor logic of `fetch_and_save_logs`: if the chain tip equals
the stored cursor, return without fetching; otherwise fetch the range
`from = cursor + 1` (or `tip - BLOCK_RANGE`, saturating, on a fresh
cursor of 0) to `to = min(from + BLOCK_RANGE, tip)` and write `to` as the
new `last_synced_block_number`. -/
def fetch_and_save_logs_cursor (last_synced latest : Nat) : TickResult :=
  if latest = last_synced then
    { last_synced_block := last_synced, fetched := false }
  else
    let from_block := if last_synced = 0 then latest - BLOCK_RANGE
                      else last_synced + 1
    let to_block := min (from_block + BLOCK_RANGE) latest
    { last_synced_block := to_block, fetched := true }

/-- Claim C6 as stated: for every prior cursor and tip — including a tip
at or behind the cursor — the written cursor is ≥ the previous value,
and at the tip nothing is fetched and the cursor is unchanged. -/
def listener_cursor_claim : Prop :=
  ∀ last_synced latest : Nat,
    last_synced ≤ (fetch_and_save_logs_cursor last_synced latest).last_synced_block
    ∧ (last_synced = latest →
        (fetch_and_save_logs_cursor last_synced latest).fetched = false
        ∧ (fetch_and_save_logs_cursor last_synced latest).last_synced_block
            = last_synced)

/-- C6 counterexample: with the cursor at block 100 and the reported
chain tip at block 50 (a tip behind the cursor), the tick writes
`min(101 + 10, 50) = 50`, moving the cursor BACKWARS from 100 to 50. -/
theorem listener_cursor_claim_false : ¬ listener_cursor_claim := by
  intro h
  have h1 := (h 100 50).1
  have h2 : (fetch_and_save_logs_cursor 100 50).last_synced_block = 50 := by
    decide
  omega

/-- C6 (amended): whenever the reported tip is at or ahead of the cursor
the written cursor never decreases; at the tip nothing is fetched and the
cursor is unchanged; but when the tip is strictly behind the cursor the
tick regresses the cursor to the tip. -/
theorem listener_cursor_monotone (last_synced latest : Nat)
    (h : last_synced ≤ latest) :
    last_synced ≤ (fetch_and_save_logs_cursor last_synced latest).last_synced_block
    ∧ (last_synced = latest →
        (fetch_and_save_logs_cursor last_synced latest).fetched = false
        ∧ (fetch_and_save_logs_cursor last_synced latest).last_synced_block
            = last_synced) := by
  unfold fetch_and_save_logs_cursor BLOCK_RANGE
  split_ifs with heq h0 <;> dsimp only
  · exact ⟨le_refl _, fun _ => ⟨rfl, rfl⟩⟩
  · exact ⟨by omega, fun hc => absurd hc.symm heq⟩
  · exact ⟨by omega, fun hc => absurd hc.symm heq⟩

/-- Witness for C6: cursor 5, tip 9 — the tick advances the cursor to 9
and does fetch. -/
theorem listener_cursor_monotone_witness :
    5 ≤ (fetch_and_save_logs_cursor 5 9).last_synced_block := by
  exact (listener_cursor_monotone 5 9 (by omega)).1

end Indexer
